import Mathlib

/-!
Shallow embedding of the thermal-calculation core of `app.py` (simplified 3CL
heat-loss estimator).  Real-number arithmetic of the source is modelled exactly
over `ℚ`; the `uuid4()` identifiers are modelled as externally supplied `String`
arguments (the generator is ambient randomness, not part of the calculation).
The classes `Menuiserie`, `Paroi`, `Piece`, `Projet` and their methods are
translated field by field and line by line from the source; the Streamlit layer
is modelled only where a claim depends on it (the guarded add-window flow).
-/

/-- Boolean test that `needle` occurs at the head of `haystack` (helper for the
Python `in` substring operator on strings). -/
def startsWithL : List Char → List Char → Bool
  | [], _ => true
  | _ :: _, [] => false
  | a :: as, b :: bs => a == b && startsWithL as bs

/-- Boolean substring containment, modelling Python `needle in haystack` on
strings. -/
def containsSub (needle : List Char) : List Char → Bool
  | [] => startsWithL needle []
  | b :: bs => startsWithL needle (b :: bs) || containsSub needle bs

/-- Python `needle in haystack` for `String`. -/
def strContains (haystack needle : String) : Bool :=
  containsSub needle.toList haystack.toList

/-- Class `Menuiserie` (glazing unit): attributes as stored by `Menuiserie.__init__`
(`app.py` lines 9–23). -/
structure Menuiserie where
  id : String
  nom : String
  largeur : ℚ
  hauteur : ℚ
  surface : ℚ
  vitrage_type : String
  u_value : ℚ
deriving Repr, DecidableEq

/-- The glazing-type → Ujn lookup of `Menuiserie.__init__`
(dict `.get(vitrage_type, 2.8)`, `app.py` lines 18–23). -/
def ujn_lookup (vitrage_type : String) : ℚ :=
  if vitrage_type = "Simple vitrage" then 5.8
  else if vitrage_type = "Double vitrage ancien" then 2.8
  else if vitrage_type = "Double vitrage récent (VIR)" then 1.4
  else if vitrage_type = "Triple vitrage" then 0.8
  else 2.8

/-- Constructor `Menuiserie.__init__(nom, largeur, hauteur, vitrage_type)` (`app.py`
lines 10–23); `id` stands for the generated `uuid4()`. -/
def Menuiserie.init (id nom : String) (largeur hauteur : ℚ)
    (vitrage_type : String) : Menuiserie :=
  { id := id
    nom := nom
    largeur := largeur
    hauteur := hauteur
    surface := largeur * hauteur
    vitrage_type := vitrage_type
    u_value := ujn_lookup vitrage_type }

/-- Class `Paroi` (envelope element): attributes as stored by `Paroi.__init__`
(`app.py` lines 26–53). -/
structure Paroi where
  id : String
  nom : String
  type_paroi : String
  longueur : ℚ
  hauteur_largeur : ℚ
  surface_brute : ℚ
  orientation : String
  contact : String
  menuiseries : List Menuiserie
  u_value : ℚ
  b_coef : ℚ
deriving Repr, DecidableEq

/-- The material → base-U lookup of `Paroi.__init__` (`app.py` lines 39–42):
`u_base = 2.5`, overridden by the first matching substring test. -/
def u_base_of (materiau : String) : ℚ :=
  if strContains materiau "Béton" then 2.3
  else if strContains materiau "Pierre" then 2.8
  else if strContains materiau "Brique" then 1.5
  else 2.5

/-- The insulation-year factor of `Paroi.__init__` (`app.py` lines 45–48):
`facteur_iso = 1.0`, then the three cascading `if annee_iso > …` overwrites. -/
def facteur_iso_of (annee_iso : ℤ) : ℚ :=
  let f : ℚ := 1.0
  let f : ℚ := if annee_iso > 1980 then 0.5 else f
  let f : ℚ := if annee_iso > 2005 then 0.25 else f
  let f : ℚ := if annee_iso > 2015 then 0.15 else f
  f

/-- Constructor `Paroi.__init__(nom, type_paroi, longueur, hauteur_largeur, orientation,
contact, annee_iso, materiau)` (`app.py` lines 26–53); `id` stands for the
generated `uuid4()`; `menuiseries` starts empty. -/
def Paroi.init (id nom type_paroi : String) (longueur hauteur_largeur : ℚ)
    (orientation contact : String) (annee_iso : ℤ) (materiau : String) : Paroi :=
  { id := id
    nom := nom
    type_paroi := type_paroi
    longueur := longueur
    hauteur_largeur := hauteur_largeur
    surface_brute := longueur * hauteur_largeur
    orientation := orientation
    contact := contact
    menuiseries := []
    u_value := u_base_of materiau * facteur_iso_of annee_iso
    b_coef := if contact = "Local Non Chauffé" then 0.95 else 1.0 }

/-- Method `Paroi.ajouter_menuiserie` (`app.py` lines 55–56): unconditional append. -/
def Paroi.ajouter_menuiserie (p : Paroi) (m : Menuiserie) : Paroi :=
  { p with menuiseries := p.menuiseries ++ [m] }

/-- Method `Paroi.get_surface_vitree` (`app.py` lines 58–59). -/
def Paroi.get_surface_vitree (p : Paroi) : ℚ :=
  (p.menuiseries.map (fun m => m.surface)).sum

/-- Method `Paroi.get_surface_nette` (`app.py` lines 61–62). -/
def Paroi.get_surface_nette (p : Paroi) : ℚ :=
  p.surface_brute - p.get_surface_vitree

/-- Method `Paroi.calcul_deperditions` (`app.py` lines 64–69). -/
def Paroi.calcul_deperditions (p : Paroi) : ℚ :=
  p.get_surface_nette * p.u_value * p.b_coef
    + (p.menuiseries.map (fun m => m.surface * m.u_value * p.b_coef)).sum

/-- The guarded add-window flow of the Streamlit layer (`app.py` lines
244–249): the unit is rejected (with an error message, no mutation) when its
area exceeds the wall's current net area, otherwise `ajouter_menuiserie` runs. -/
def Paroi.ajouter_menuiserie_ui (p : Paroi) (m : Menuiserie) : Option Paroi :=
  if m.surface > p.get_surface_nette then none
  else some (p.ajouter_menuiserie m)

/-- Iterated guarded add-window flow: each unit in turn through
`ajouter_menuiserie_ui`, stopping at the first rejection. -/
def Paroi.ajouter_liste_ui (p : Paroi) : List Menuiserie → Option Paroi
  | [] => some p
  | m :: ms =>
    match p.ajouter_menuiserie_ui m with
    | none => none
    | some q => q.ajouter_liste_ui ms

/-- Class `Piece` (room): attributes as stored by `Piece.__init__`
(`app.py` lines 71–82). -/
structure Piece where
  id : String
  nom : String
  longueur : ℚ
  largeur : ℚ
  hauteur : ℚ
  surface_hab : ℚ
  volume : ℚ
  murs : List Paroi
  planchers : List Paroi
  plafonds : List Paroi
deriving Repr, DecidableEq

/-- Constructor `Piece.__init__(nom, longueur, largeur, hauteur)` (`app.py` lines 72–82);
`id` stands for the generated `uuid4()`. -/
def Piece.init (id nom : String) (longueur largeur hauteur : ℚ) : Piece :=
  { id := id
    nom := nom
    longueur := longueur
    largeur := largeur
    hauteur := hauteur
    surface_hab := longueur * largeur
    volume := longueur * largeur * hauteur
    murs := []
    planchers := []
    plafonds := [] }

/-- Method `Piece.ajouter_paroi` (`app.py` lines 84–87): `if/elif/elif` routing with
no `else` branch — an unrecognized `type_paroi` is silently ignored. -/
def Piece.ajouter_paroi (pc : Piece) (p : Paroi) : Piece :=
  if p.type_paroi = "MUR" then { pc with murs := pc.murs ++ [p] }
  else if p.type_paroi = "PLANCHER" then { pc with planchers := pc.planchers ++ [p] }
  else if p.type_paroi = "PLAFOND" then { pc with plafonds := pc.plafonds ++ [p] }
  else pc

/-- Class `Projet` (`app.py` lines 89–94). -/
structure Projet where
  pieces : List Piece
  altitude : ℤ
  zone_climatique : String
  annee_construction : ℤ
deriving Repr, DecidableEq

/-- Constructor `Projet.__init__` (`app.py` lines 90–94). -/
def Projet.init : Projet :=
  { pieces := [], altitude := 0, zone_climatique := "H1", annee_construction := 1990 }

/-- One row of the itemized report dict
`{"Element": …, "Type": …, "Deperdition (W/K)": …}`. -/
structure Ligne where
  element : String
  type_poste : String
  deperdition : ℚ
deriving Repr, DecidableEq

/-- Report row for a wall (`app.py` line 105). -/
def ligne_mur (piece : Piece) (mur : Paroi) : Ligne :=
  ⟨piece.nom ++ " - " ++ mur.nom, "Mur+Baies", mur.calcul_deperditions⟩

/-- Report row for a floor (`app.py` line 109). -/
def ligne_plancher (piece : Piece) (sol : Paroi) : Ligne :=
  ⟨piece.nom ++ " - " ++ sol.nom, "Plancher", sol.calcul_deperditions⟩

/-- Report row for a ceiling (`app.py` line 113). -/
def ligne_plafond (piece : Piece) (plaf : Paroi) : Ligne :=
  ⟨piece.nom ++ " - " ++ plaf.nom, "Plafond", plaf.calcul_deperditions⟩

/-- Loop body of `calcul_ponts_thermiques_auto` over one wall (`app.py` lines
132–140): accumulator is `(pertes_pt, longueur_murs_ext)`; the window-perimeter
term is accumulated for every wall, the length only under the contact test. -/
def pont_step (acc : ℚ × ℚ) (mur : Paroi) : ℚ × ℚ :=
  (mur.menuiseries.foldl
      (fun pertes fen => pertes + (fen.largeur + fen.hauteur) * 2 * 0.1) acc.1,
   if mur.contact = "Extérieur" ∨ mur.contact = "Local Non Chauffé"
     then acc.2 + mur.longueur else acc.2)

/-- Method `Projet.calcul_ponts_thermiques_auto` (`app.py` lines 122–144), with
`psi_menuiserie = 0.1` inlined in `pont_step`, `psi_plancher = 0.35`,
`psi_plafond = 0.25`. -/
def Projet.calcul_ponts_thermiques_auto (pr : Projet) : ℚ :=
  let acc := pr.pieces.foldl (fun acc piece => piece.murs.foldl pont_step acc)
    ((0 : ℚ), (0 : ℚ))
  acc.1 + acc.2 * 0.35 + acc.2 * 0.25

/-- Loop body of `calcul_global_deperditions` over one room (`app.py` lines
101–113): accumulator is `(total_watts, details)`. -/
def piece_step (acc : ℚ × List Ligne) (piece : Piece) : ℚ × List Ligne :=
  let acc := piece.murs.foldl
    (fun acc mur => (acc.1 + mur.calcul_deperditions, acc.2 ++ [ligne_mur piece mur])) acc
  let acc := piece.planchers.foldl
    (fun acc sol => (acc.1 + sol.calcul_deperditions, acc.2 ++ [ligne_plancher piece sol])) acc
  piece.plafonds.foldl
    (fun acc plaf => (acc.1 + plaf.calcul_deperditions, acc.2 ++ [ligne_plafond piece plaf])) acc

/-- Method `Projet.calcul_global_deperditions` (`app.py` lines 96–120): element rows,
then the synthetic thermal-bridge row, returning `(total_watts, details)`. -/
def Projet.calcul_global_deperditions (pr : Projet) : ℚ × List Ligne :=
  let acc := pr.pieces.foldl piece_step ((0 : ℚ), ([] : List Ligne))
  let ponts := pr.calcul_ponts_thermiques_auto
  (acc.1 + ponts, acc.2 ++ [⟨"Global", "Ponts Thermiques", ponts⟩])

/-- Window-perimeter thermal-bridge term of one wall: Σ over its glazing units
of `(largeur + hauteur) * 2 * ψ_menuiserie` (so exactly what the inner loop of
`calcul_ponts_thermiques_auto` adds for that wall). -/
def pt_menuiseries_mur (mur : Paroi) : ℚ :=
  (mur.menuiseries.map (fun fen => (fen.largeur + fen.hauteur) * 2 * 0.1)).sum

/-- Length contribution of one wall to `longueur_murs_ext`: its length when its
contact is Outdoor or UnheatedSpace, else `0`. -/
def longueur_si_ext (mur : Paroi) : ℚ :=
  if mur.contact = "Extérieur" ∨ mur.contact = "Local Non Chauffé"
    then mur.longueur else 0

/-- Closed-form window-perimeter term over all walls of the project. -/
def terme_menuiseries (pr : Projet) : ℚ :=
  (pr.pieces.map (fun pc => (pc.murs.map pt_menuiseries_mur).sum)).sum

/-- Closed-form summed length of the Outdoor/UnheatedSpace walls of the
project. -/
def longueur_ext (pr : Projet) : ℚ :=
  (pr.pieces.map (fun pc => (pc.murs.map longueur_si_ext).sum)).sum

/-- Window-perimeter term of a wall restricted by boundary-contact: the wall's
window perimeters count only when its contact is Outdoor or UnheatedSpace. -/
def pt_menuiseries_si_ext (mur : Paroi) : ℚ :=
  if mur.contact = "Extérieur" ∨ mur.contact = "Local Non Chauffé"
    then pt_menuiseries_mur mur else 0

/-- Modelled from the spec: the thermal-bridge estimate as §4.4 words it —
EVERY term, the window-perimeter one included, summed only over walls whose
contact is Outdoor or UnheatedSpace.  This is the claim-side formula, kept to
compare against `Projet.calcul_ponts_thermiques_auto` (the source formula). -/
def calcul_ponts_claimed (pr : Projet) : ℚ :=
  (pr.pieces.map (fun pc => (pc.murs.map pt_menuiseries_si_ext).sum)).sum
    + longueur_ext pr * 0.35 + longueur_ext pr * 0.25

/-- Total element loss of one room: Σ `calcul_deperditions` over its walls,
floors and ceilings. -/
def piece_total (pc : Piece) : ℚ :=
  (pc.murs.map Paroi.calcul_deperditions).sum
    + (pc.planchers.map Paroi.calcul_deperditions).sum
    + (pc.plafonds.map Paroi.calcul_deperditions).sum

/-- Report rows of one room, in the order the loops of
`calcul_global_deperditions` emit them: walls, then floors, then ceilings. -/
def piece_lignes (pc : Piece) : List Ligne :=
  pc.murs.map (ligne_mur pc) ++ pc.planchers.map (ligne_plancher pc)
    ++ pc.plafonds.map (ligne_plafond pc)

/-- Concrete wall for claim C2: a heated-interior partition carrying one
1.0 × 1.2 window. -/
def murC2 : Paroi :=
  (Paroi.init "id-m2" "Cloison" "MUR" 5 (5/2) "Nord" "Intérieur (Chauffé)" 0
      "Brique").ajouter_menuiserie
    (Menuiserie.init "id-f2" "F1" 1 (12/10) "Simple vitrage")

/-- Concrete room for claim C2 holding only `murC2`. -/
def pieceC2 : Piece := (Piece.init "id-p2" "Salon" 5 4 (5/2)).ajouter_paroi murC2

/-- Concrete project for claim C2. -/
def projC2 : Projet := { Projet.init with pieces := [pieceC2] }

/-- Concrete wall for claim C3: gross area 12.5 m², no glazing yet. -/
def murC3 : Paroi :=
  Paroi.init "id-m3" "Mur Nord" "MUR" 5 (5/2) "Nord" "Extérieur" 0 "Parpaing Creux"

/-- Concrete oversized glazing unit for claim C3: area 13 m² > 12.5 m². -/
def menC3 : Menuiserie := Menuiserie.init "id-f3" "Baie" 13 1 "Simple vitrage"

/-- Concrete small glazing unit for claim C3's witness: area 1.2 m². -/
def menC3w : Menuiserie := Menuiserie.init "id-f3w" "Fenetre 1" 1 (12/10) "Simple vitrage"

/-- Concrete room for claim C5's witness. -/
def pieceC5 : Piece := Piece.init "id-p5" "Salon" 5 4 (5/2)

/-- Concrete element with an unrecognized category for claim C5. -/
def toitC5 : Paroi :=
  Paroi.init "id-t5" "Toit" "TOITURE" 5 4 "N/A" "Extérieur" 0 "Placo"

/-- Concrete wall for claim C5's witness. -/
def murC5 : Paroi :=
  Paroi.init "id-m5" "Mur Sud" "MUR" 5 (5/2) "Sud" "Extérieur" 0 "Brique"

/-- Concrete Outdoor wall of length 5 with one 1.0 × 1.2 window (claim C8). -/
def murC8 : Paroi :=
  (Paroi.init "id-m8" "Mur Sud" "MUR" 5 (5/2) "Sud" "Extérieur" 0
      "Parpaing Creux").ajouter_menuiserie
    (Menuiserie.init "id-f8" "Fenetre 1" 1 (12/10) "Simple vitrage")

/-- Concrete room for claim C8 holding only `murC8`. -/
def pieceC8 : Piece := (Piece.init "id-p8" "Salon" 5 4 (5/2)).ajouter_paroi murC8

/-- Concrete project for claim C8. -/
def projC8 : Projet := { Projet.init with pieces := [pieceC8] }

lemma sum_map_mul_b (l : List Menuiserie) (b : ℚ) :
    (l.map (fun m => m.surface * m.u_value * b)).sum
      = (l.map (fun m => m.surface * m.u_value)).sum * b := by
  induction l with
  | nil => simp
  | cons m t ih => simp only [List.map_cons, List.sum_cons, ih]; ring

lemma u_base_of_nonneg (materiau : String) : 0 ≤ u_base_of materiau := by
  unfold u_base_of
  split_ifs <;> norm_num

lemma facteur_iso_of_anti {y1 y2 : ℤ} (h : y1 ≤ y2) :
    facteur_iso_of y2 ≤ facteur_iso_of y1 := by
  simp only [facteur_iso_of]
  split_ifs <;> first | (exfalso; omega) | norm_num

lemma surface_nette_ajouter (p : Paroi) (m : Menuiserie) :
    (p.ajouter_menuiserie m).get_surface_nette = p.get_surface_nette - m.surface := by
  simp only [Paroi.ajouter_menuiserie, Paroi.get_surface_nette,
    Paroi.get_surface_vitree, List.map_append, List.sum_append, List.map_cons,
    List.map_nil, List.sum_cons, List.sum_nil]
  ring

/-- C1: for every envelope element, `calcul_deperditions` returns
net opaque area × U × b plus (Σ glazing area × glazing U) × b, the element's
own `b_coef` applied identically to the opaque and the glazed term. -/
theorem claim_C1 (p : Paroi) :
    p.calcul_deperditions
      = p.get_surface_nette * p.u_value * p.b_coef
        + ((p.menuiseries.map (fun m => m.surface * m.u_value)).sum) * p.b_coef := by
  simp only [Paroi.calcul_deperditions, sum_map_mul_b]

/-- C4 counterexample: none of the three constructors rejects a non-positive
dimension — each constructs an object, with the derived areas taken from the
plain product (here negative). -/
theorem claim_C4_counterexample :
    (Menuiserie.init "u" "F" (-1) (12/10) "Simple vitrage").surface = -(12/10)
      ∧ (Paroi.init "u" "M" "MUR" (-5) (5/2) "Nord" "Extérieur" 0 "Brique").surface_brute
          = -(25/2)
      ∧ (Piece.init "u" "P" (-3) 4 (5/2)).volume = -30 := by
  refine ⟨?_, ?_, ?_⟩ <;> norm_num [Menuiserie.init, Paroi.init, Piece.init]

/-- C4 amended: the constructors perform no dimension validation at all: for
every input, including non-positive lengths, they build the object and set the
derived areas to the plain products. -/
theorem claim_C4 (i n tp ori ct mat vt : String) (x y z : ℚ) (an : ℤ) :
    (Menuiserie.init i n x y vt).surface = x * y
      ∧ (Paroi.init i n tp x y ori ct an mat).surface_brute = x * y
      ∧ (Piece.init i n x y z).surface_hab = x * y
      ∧ (Piece.init i n x y z).volume = x * y * z :=
  ⟨rfl, rfl, rfl, rfl⟩

/-- C5 counterexample: adding an element whose category is the unrecognized
"TOITURE" does not fail — `ajouter_paroi` returns the room unchanged. -/
theorem claim_C5_counterexample : pieceC5.ajouter_paroi toitC5 = pieceC5 := by
  simp [Piece.ajouter_paroi, toitC5, Paroi.init]

/-- C5 amended: `ajouter_paroi` routes the element into exactly the collection
matching its category; any category outside {MUR, PLANCHER, PLAFOND} is
silently ignored — the element is inserted into no collection and no error is
raised. -/
theorem claim_C5 (pc : Piece) (p : Paroi) :
    (p.type_paroi = "MUR" → pc.ajouter_paroi p = { pc with murs := pc.murs ++ [p] })
      ∧ (p.type_paroi = "PLANCHER" →
          pc.ajouter_paroi p = { pc with planchers := pc.planchers ++ [p] })
      ∧ (p.type_paroi = "PLAFOND" →
          pc.ajouter_paroi p = { pc with plafonds := pc.plafonds ++ [p] })
      ∧ (p.type_paroi ≠ "MUR" → p.type_paroi ≠ "PLANCHER" → p.type_paroi ≠ "PLAFOND" →
          pc.ajouter_paroi p = pc) := by
  refine ⟨fun h => ?_, fun h => ?_, fun h => ?_, fun h1 h2 h3 => ?_⟩
  · simp [Piece.ajouter_paroi, h]
  · simp [Piece.ajouter_paroi, h]
  · simp [Piece.ajouter_paroi, h]
  · simp [Piece.ajouter_paroi, h1, h2, h3]

/-- C5 witness: a wall is routed into the walls collection. -/
theorem claim_C5_witness :
    pieceC5.ajouter_paroi murC5 = { pieceC5 with murs := pieceC5.murs ++ [murC5] } :=
  (claim_C5 pieceC5 murC5).1 rfl

/-- C6: with material and every other constructor input fixed, the derived
U-value is monotonically non-increasing in the insulation year, and in
particular U(2020) ≤ U(2010) ≤ U(1990) ≤ U(1970). -/
theorem claim_C6 (i n tp ori ct mat : String) (x y : ℚ) :
    (∀ (y1 y2 : ℤ), y1 ≤ y2 →
        (Paroi.init i n tp x y ori ct y2 mat).u_value
          ≤ (Paroi.init i n tp x y ori ct y1 mat).u_value)
      ∧ ((Paroi.init i n tp x y ori ct 2020 mat).u_value
            ≤ (Paroi.init i n tp x y ori ct 2010 mat).u_value
          ∧ (Paroi.init i n tp x y ori ct 2010 mat).u_value
            ≤ (Paroi.init i n tp x y ori ct 1990 mat).u_value
          ∧ (Paroi.init i n tp x y ori ct 1990 mat).u_value
            ≤ (Paroi.init i n tp x y ori ct 1970 mat).u_value) := by
  have mono : ∀ (y1 y2 : ℤ), y1 ≤ y2 →
      (Paroi.init i n tp x y ori ct y2 mat).u_value
        ≤ (Paroi.init i n tp x y ori ct y1 mat).u_value := by
    intro y1 y2 h
    show u_base_of mat * facteur_iso_of y2 ≤ u_base_of mat * facteur_iso_of y1
    exact mul_le_mul_of_nonneg_left (facteur_iso_of_anti h) (u_base_of_nonneg mat)
  exact ⟨mono, mono 2010 2020 (by norm_num), mono 1990 2010 (by norm_num),
    mono 1970 1990 (by norm_num)⟩

/-- C6 witness: the monotonicity instance at years 2010 ≤ 2020 for brick. -/
theorem claim_C6_witness :
    (Paroi.init "u" "M" "MUR" 5 (5/2) "Nord" "Extérieur" 2020 "Brique").u_value
      ≤ (Paroi.init "u" "M" "MUR" 5 (5/2) "Nord" "Extérieur" 2010 "Brique").u_value :=
  (claim_C6 "u" "M" "MUR" "Nord" "Extérieur" "Brique" 5 (5/2)).1 2010 2020 (by norm_num)

/-- C10: a successful `ajouter_menuiserie` appends the one unit at the end of
the element's glazing sequence and changes nothing else: identity, gross area,
transmittance, `b_coef`, category, dimensions, orientation and contact are all
unchanged (and the previously hosted units are preserved by the append). -/
theorem claim_C10 (p : Paroi) (m : Menuiserie) :
    (p.ajouter_menuiserie m).menuiseries = p.menuiseries ++ [m]
      ∧ (p.ajouter_menuiserie m).id = p.id
      ∧ (p.ajouter_menuiserie m).nom = p.nom
      ∧ (p.ajouter_menuiserie m).type_paroi = p.type_paroi
      ∧ (p.ajouter_menuiserie m).longueur = p.longueur
      ∧ (p.ajouter_menuiserie m).hauteur_largeur = p.hauteur_largeur
      ∧ (p.ajouter_menuiserie m).surface_brute = p.surface_brute
      ∧ (p.ajouter_menuiserie m).orientation = p.orientation
      ∧ (p.ajouter_menuiserie m).contact = p.contact
      ∧ (p.ajouter_menuiserie m).u_value = p.u_value
      ∧ (p.ajouter_menuiserie m).b_coef = p.b_coef :=
  ⟨rfl, rfl, rfl, rfl, rfl, rfl, rfl, rfl, rfl, rfl, rfl⟩

/-- C3 counterexample: the core `ajouter_menuiserie` performs no oversize
check — adding a 13 m² unit to a 12.5 m² wall succeeds, inserts the unit, and
drives the net opaque area negative. -/
theorem claim_C3_counterexample :
    (murC3.ajouter_menuiserie menC3).get_surface_nette < 0
      ∧ (murC3.ajouter_menuiserie menC3).menuiseries = [menC3] := by
  constructor
  · norm_num [murC3, menC3, Paroi.init, Menuiserie.init, Paroi.ajouter_menuiserie,
      Paroi.get_surface_nette, Paroi.get_surface_vitree]
  · simp [murC3, Paroi.init, Paroi.ajouter_menuiserie]

/-- C3 amended: the oversize rejection lives in the UI caller, not in
`ajouter_menuiserie` itself: the guarded flow rejects (returning `none`, the
element untouched) exactly when the unit's area plus the already-hosted glazing
areas exceeds the gross area, and the net opaque area stays ≥ 0 after every
sequence of additions that passes this caller-side guard. -/
theorem claim_C3 :
    (∀ (p : Paroi) (m : Menuiserie),
        p.ajouter_menuiserie_ui m = none
          ↔ p.surface_brute < m.surface + p.get_surface_vitree)
      ∧ (∀ (p : Paroi) (ms : List Menuiserie) (q : Paroi),
          0 ≤ p.get_surface_nette → p.ajouter_liste_ui ms = some q →
            0 ≤ q.get_surface_nette) := by
  constructor
  · intro p m
    by_cases h : m.surface > p.get_surface_nette
    · simp only [Paroi.ajouter_menuiserie_ui, if_pos h]
      exact iff_of_true (by trivial)
        (by unfold Paroi.get_surface_nette at h; linarith)
    · simp only [Paroi.ajouter_menuiserie_ui, if_neg h]
      refine iff_of_false (by simp) ?_
      unfold Paroi.get_surface_nette at h
      push_neg at h
      push_neg
      linarith
  · intro p ms
    induction ms generalizing p with
    | nil =>
      intro q h0 hrun
      simp only [Paroi.ajouter_liste_ui, Option.some.injEq] at hrun
      exact hrun ▸ h0
    | cons m ms ih =>
      intro q h0 hrun
      simp only [Paroi.ajouter_liste_ui] at hrun
      by_cases h : m.surface > p.get_surface_nette
      · simp only [Paroi.ajouter_menuiserie_ui, if_pos h] at hrun
        exact absurd hrun (by simp)
      · simp only [Paroi.ajouter_menuiserie_ui, if_neg h] at hrun
        have h0' : 0 ≤ (p.ajouter_menuiserie m).get_surface_nette := by
          rw [surface_nette_ajouter]
          push_neg at h
          linarith
        exact ih (p.ajouter_menuiserie m) q h0' hrun

/-- C3 witness: a 1.2 m² window passes the guard on the 12.5 m² wall and the
net opaque area stays non-negative. -/
theorem claim_C3_witness :
    0 ≤ (murC3.ajouter_menuiserie menC3w).get_surface_nette := by
  have h : ¬(menC3w.surface > murC3.get_surface_nette) := by
    norm_num [menC3w, murC3, Menuiserie.init, Paroi.init,
      Paroi.get_surface_nette, Paroi.get_surface_vitree]
  have h0 : 0 ≤ murC3.get_surface_nette := by
    norm_num [murC3, Paroi.init, Paroi.get_surface_nette, Paroi.get_surface_vitree]
  have hrun : murC3.ajouter_liste_ui [menC3w]
      = some (murC3.ajouter_menuiserie menC3w) := by
    simp [Paroi.ajouter_liste_ui, Paroi.ajouter_menuiserie_ui, h]
  exact claim_C3.2 murC3 [menC3w] (murC3.ajouter_menuiserie menC3w) h0 hrun

lemma pont_fold_menuiseries (l : List Menuiserie) (a : ℚ) :
    l.foldl (fun pertes fen => pertes + (fen.largeur + fen.hauteur) * 2 * 0.1) a
      = a + (l.map (fun fen => (fen.largeur + fen.hauteur) * 2 * 0.1)).sum := by
  induction l generalizing a with
  | nil => simp
  | cons f t ih =>
    simp only [List.foldl_cons, List.map_cons, List.sum_cons, ih]
    ring

lemma pont_step_eq (acc : ℚ × ℚ) (mur : Paroi) :
    pont_step acc mur
      = (acc.1 + pt_menuiseries_mur mur, acc.2 + longueur_si_ext mur) := by
  unfold pont_step pt_menuiseries_mur longueur_si_ext
  rw [pont_fold_menuiseries]
  by_cases h : mur.contact = "Extérieur" ∨ mur.contact = "Local Non Chauffé"
  · simp [h]
  · simp [h]

lemma murs_fold_pont (l : List Paroi) (acc : ℚ × ℚ) :
    l.foldl pont_step acc
      = (acc.1 + (l.map pt_menuiseries_mur).sum,
         acc.2 + (l.map longueur_si_ext).sum) := by
  induction l generalizing acc with
  | nil => simp
  | cons mur t ih =>
    simp only [List.foldl_cons, pont_step_eq, ih, List.map_cons, List.sum_cons,
      Prod.mk.injEq]
    constructor <;> ring

lemma pieces_fold_pont (l : List Piece) (acc : ℚ × ℚ) :
    l.foldl (fun acc piece => piece.murs.foldl pont_step acc) acc
      = (acc.1 + (l.map (fun pc => (pc.murs.map pt_menuiseries_mur).sum)).sum,
         acc.2 + (l.map (fun pc => (pc.murs.map longueur_si_ext).sum)).sum) := by
  induction l generalizing acc with
  | nil => simp
  | cons pc t ih =>
    rw [List.foldl_cons, murs_fold_pont, ih]
    simp only [List.map_cons, List.sum_cons, Prod.mk.injEq]
    constructor <;> ring

/-- C2 counterexample: a heated-interior wall with one 1.0 × 1.2 window.  The
claim makes every term — including the window-perimeter one — range only over
Outdoor/UnheatedSpace walls, so it predicts 0 here; the source counts the
window perimeters of every wall and returns 0.44 = 11/25 W/K. -/
theorem claim_C2_counterexample :
    projC2.calcul_ponts_thermiques_auto = 11/25
      ∧ calcul_ponts_claimed projC2 = 0
      ∧ (11/25 : ℚ) ≠ 0 := by
  have hc : ¬("Intérieur (Chauffé)" = "Extérieur"
      ∨ "Intérieur (Chauffé)" = "Local Non Chauffé") := by decide
  refine ⟨?_, ?_, by norm_num⟩
  · norm_num [projC2, pieceC2, murC2, Projet.calcul_ponts_thermiques_auto,
      pont_step, Piece.ajouter_paroi, Paroi.ajouter_menuiserie, Paroi.init,
      Piece.init, Menuiserie.init, hc]
  · norm_num [projC2, pieceC2, murC2, calcul_ponts_claimed, pt_menuiseries_si_ext,
      pt_menuiseries_mur, longueur_ext, longueur_si_ext, Piece.ajouter_paroi,
      Paroi.ajouter_menuiserie, Paroi.init, Piece.init, Menuiserie.init, hc]

/-- C2 amended: `calcul_ponts_thermiques_auto` equals the window-perimeter
term summed over the glazing units of EVERY wall (regardless of
boundary-contact), plus 0.35 and 0.25 times the summed lengths of only the
Outdoor/UnheatedSpace walls; floors and ceilings contribute to no term. -/
theorem claim_C2 (pr : Projet) :
    pr.calcul_ponts_thermiques_auto
      = terme_menuiseries pr + longueur_ext pr * 0.35 + longueur_ext pr * 0.25 := by
  unfold Projet.calcul_ponts_thermiques_auto terme_menuiseries longueur_ext
  rw [pieces_fold_pont]
  simp

lemma track_fold {α : Type} (f : α → ℚ) (g : α → Ligne) (l : List α)
    (acc : ℚ × List Ligne) :
    l.foldl (fun acc x => (acc.1 + f x, acc.2 ++ [g x])) acc
      = (acc.1 + (l.map f).sum, acc.2 ++ l.map g) := by
  induction l generalizing acc with
  | nil => simp
  | cons x t ih =>
    rw [List.foldl_cons, ih]
    simp only [List.map_cons, List.sum_cons, Prod.mk.injEq, List.append_assoc,
      List.singleton_append, List.cons_append, List.nil_append]
    constructor
    · ring
    · trivial

lemma piece_step_eq (acc : ℚ × List Ligne) (pc : Piece) :
    piece_step acc pc = (acc.1 + piece_total pc, acc.2 ++ piece_lignes pc) := by
  unfold piece_step
  simp only [track_fold]
  unfold piece_total piece_lignes
  simp only [Prod.mk.injEq, List.append_assoc]
  constructor
  · ring
  · trivial

lemma pieces_fold_global (l : List Piece) (acc : ℚ × List Ligne) :
    l.foldl piece_step acc
      = (acc.1 + (l.map piece_total).sum,
         acc.2 ++ (l.map piece_lignes).flatten) := by
  induction l generalizing acc with
  | nil => simp
  | cons pc t ih =>
    rw [List.foldl_cons, piece_step_eq, ih]
    simp only [List.map_cons, List.sum_cons, List.flatten_cons, Prod.mk.injEq,
      List.append_assoc]
    constructor
    · ring
    · trivial

lemma dep_piece_lignes (pc : Piece) :
    ((piece_lignes pc).map Ligne.deperdition).sum = piece_total pc := by
  simp only [piece_lignes, piece_total, ligne_mur, ligne_plancher, ligne_plafond,
    List.map_append, List.sum_append, List.map_map, Function.comp_def]

/-- C7: the `total_watts` value returned by `calcul_global_deperditions` equals
the exact sum of the `Deperdition (W/K)` values of the rows it returns
alongside (the per-element rows plus the final thermal-bridge row). -/
theorem claim_C7 (pr : Projet) :
    (pr.calcul_global_deperditions).1
      = ((pr.calcul_global_deperditions).2.map Ligne.deperdition).sum := by
  unfold Projet.calcul_global_deperditions
  rw [pieces_fold_global]
  simp [List.map_append, List.sum_append, List.map_flatten, List.sum_flatten,
    List.map_map, Function.comp_def, dep_piece_lignes]

/-- C8: for a project with exactly one Outdoor wall of length 5 hosting one
1.0 × 1.2 window, `calcul_ponts_thermiques_auto` returns
2×(1.0+1.2)×0.1 + 5×0.35 + 5×0.25 = 3.44 W/K. -/
theorem claim_C8 : projC8.calcul_ponts_thermiques_auto = 3.44 := by
  have hc : ("Extérieur" = "Extérieur" ∨ "Extérieur" = "Local Non Chauffé") := by
    decide
  norm_num [projC8, pieceC8, murC8, Projet.calcul_ponts_thermiques_auto,
    pont_step, Piece.ajouter_paroi, Paroi.ajouter_menuiserie, Paroi.init,
    Piece.init, Menuiserie.init, hc]

/-- C9: on a freshly created project with no rooms, `calcul_global_deperditions`
returns `total_watts = 0` with exactly one row, the synthetic thermal-bridge
row, of value 0. -/
theorem claim_C9 :
    Projet.init.calcul_global_deperditions
      = (0, [⟨"Global", "Ponts Thermiques", 0⟩]) := by
  norm_num [Projet.init, Projet.calcul_global_deperditions,
    Projet.calcul_ponts_thermiques_auto]
